import Mathlib

/-!
# Verification of the CS-330 `SceneManager` core (Source/SceneManager.cpp)

Shallow embedding of the scene-manager state layer: the texture registry,
the material registry, the shader-uniform "state bridge", and the scene
preparation/render script.  Every definition is translated from
`src/Source/SceneManager.cpp`; C++ `float` values are modelled as exact
rationals (`ℚ`) where they are only stored and copied, and as reals (`ℝ`)
where the code does trigonometry and matrix arithmetic (`SetTransformations`).

Modelling conventions:
* The fixed 16-slot texture array `m_textureIDs` together with the fill
  count `m_loadedTextures` is modelled as the list of its filled slots
  (slot `i` = list index `i`, `m_loadedTextures` = list length); the code
  only ever reads/writes slots `0 .. m_loadedTextures-1` in order.
* The OpenGL context is modelled by `GLState`: a fresh-name counter for
  `glGenTextures` (GL never hands out a live name), the set of live
  (generated, never deleted) texture objects, the currently bound texture,
  and the per-unit bindings made by `glActiveTexture`/`glBindTexture`.
* The `ShaderManager*` pointer is `Option ShaderState`: `none` is a null
  pointer.  A method that dereferences the pointer without the
  `NULL != m_pShaderManager` guard returns `Option SceneManagerState`,
  where `none` is a null-pointer dereference.
* `stbi_load` is an external decoder; it enters the model as a function
  `decode : String → Option Image` passed to the texture-loading code.
* The uninitialized C++ local `OBJECT_MATERIAL material;` in
  `SetShaderMaterial` is modelled by an explicit `junk` argument holding
  whatever indeterminate values the local starts with.
-/

namespace SceneMgr

/-- 3-component float vector (glm::vec3), modelled over ℚ. -/
abbrev Vec3 := ℚ × ℚ × ℚ

/-- 4-component float vector (glm::vec4), modelled over ℚ. -/
abbrev Vec4 := ℚ × ℚ × ℚ × ℚ

/-- One texture-registry entry (`TEXTURE_INFO`): GPU texture name plus tag. -/
structure TEXTURE_INFO where
  ID : Nat
  tag : String
deriving DecidableEq, Repr

/-- One material-registry entry (`OBJECT_MATERIAL`). -/
structure OBJECT_MATERIAL where
  diffuseColor : Vec3
  specularColor : Vec3
  shininess : ℚ
  tag : String
deriving DecidableEq, Repr

/-- Result of `stbi_load` decoding an image file. -/
structure Image where
  width : Int
  height : Int
  channels : Int
deriving DecidableEq, Repr

/-- The OpenGL texture-object state visible to this program. -/
structure GLState where
  /-- Next texture name `glGenTextures` will hand out (names are fresh). -/
  nextName : Nat
  /-- Texture objects generated and never deleted. -/
  live : List Nat
  /-- Texture currently bound to `GL_TEXTURE_2D` (0 = none). -/
  bound : Nat
  /-- Names bound to texture units by `BindGLTextures` (index = unit). -/
  units : List Nat
deriving DecidableEq, Repr

/-- `glGenTextures(1, &id)`: hand out a fresh name and remember it as live. -/
def glGenTexture (gl : GLState) : Nat × GLState :=
  (gl.nextName,
   { gl with nextName := gl.nextName + 1, live := gl.live ++ [gl.nextName] })

/-- Uniforms of the directional light (`directionalLight.*`). -/
structure DirectionalLight where
  direction : Vec3
  ambient : Vec3
  diffuse : Vec3
  specular : Vec3
  bActive : Bool
deriving DecidableEq, Repr

/-- Uniforms of the point light (`pointLights[0].*`). -/
structure PointLight where
  position : Vec3
  ambient : Vec3
  diffuse : Vec3
  specular : Vec3
  bActive : Bool
deriving DecidableEq, Repr

/-- The shader program's uniform store, reached through `m_pShaderManager`.
The model matrix is a real 4×4 matrix; the remaining uniforms only ever
receive stored rational values. -/
structure ShaderState where
  model : Matrix (Fin 4) (Fin 4) ℝ
  objectColor : Vec4
  objectTexture : Int
  bUseTexture : Bool
  bUseLighting : Bool
  UVscale : ℚ × ℚ
  materialDiffuseColor : Vec3
  materialSpecularColor : Vec3
  materialShininess : ℚ
  directionalLight : DirectionalLight
  pointLight0 : PointLight

/-- The four primitive meshes `ShapeMeshes` can load. -/
inductive MeshKind where
  | box
  | plane
  | cylinder
  | torus
deriving DecidableEq, Repr

/-- The `SceneManager` object state (plus the GL context it drives). -/
structure SceneManagerState where
  /-- `m_pShaderManager` (`none` = null pointer). -/
  pShaderManager : Option ShaderState
  /-- Filled slots of `m_textureIDs`; `m_loadedTextures` = length. -/
  textureIDs : List TEXTURE_INFO
  /-- `m_objectMaterials`. -/
  objectMaterials : List OBJECT_MATERIAL
  gl : GLState
  /-- Meshes loaded into `m_basicMeshes`. -/
  loadedMeshes : List MeshKind

/-- `m_loadedTextures`: the texture fill count. -/
def SceneManagerState.loadedTextures (s : SceneManagerState) : Nat :=
  s.textureIDs.length

/-! ## Texture registry -/

/-- `SceneManager::CreateGLTexture`: decode the file, generate and bind a
texture object, upload if the image has 3 or 4 channels (any other channel
count returns `false` early, with the fresh object still generated and
bound and no registry append), generate mipmaps, unbind, and register the
texture under `tag` in the next slot. -/
def createGLTexture (decode : String → Option Image) (filename : String)
    (tag : String) (s : SceneManagerState) : Bool × SceneManagerState :=
  match decode filename with
  | none => (false, s)
  | some image =>
      let (textureID, gl1) := glGenTexture s.gl
      let gl2 := { gl1 with bound := textureID }
      if image.channels = 3 ∨ image.channels = 4 then
        let gl3 := { gl2 with bound := 0 }
        (true, { s with
                  gl := gl3,
                  textureIDs := s.textureIDs ++ [{ ID := textureID, tag := tag }] })
      else
        (false, { s with gl := gl2 })

/-- `SceneManager::BindGLTextures`: bind texture `i` to texture unit `i`
for every filled slot. -/
def bindGLTextures (s : SceneManagerState) : SceneManagerState :=
  { s with gl := { s.gl with units := s.textureIDs.map TEXTURE_INFO.ID } }

/-- Loop body of `SceneManager::DestroyGLTextures`: for each filled slot in
order, generate a fresh texture name and store it into the slot's `ID`
field (no `glDeleteTextures` call anywhere). -/
def destroyLoop : List TEXTURE_INFO → GLState → List TEXTURE_INFO × GLState
  | [], gl => ([], gl)
  | e :: rest, gl =>
      let (newID, gl1) := glGenTexture gl
      let (rest1, gl2) := destroyLoop rest gl1
      ({ e with ID := newID } :: rest1, gl2)

/-- `SceneManager::DestroyGLTextures`. -/
def destroyGLTextures (s : SceneManagerState) : SceneManagerState :=
  let (entries, gl1) := destroyLoop s.textureIDs s.gl
  { s with textureIDs := entries, gl := gl1 }

/-- Scan loop of `SceneManager::FindTextureID`: first entry whose tag
compares equal wins; `-1` if the scan runs off the end. -/
def findTextureIDLoop : List TEXTURE_INFO → String → Int
  | [], _ => -1
  | e :: rest, tag =>
      if e.tag = tag then (e.ID : Int) else findTextureIDLoop rest tag

/-- `SceneManager::FindTextureID`. -/
def findTextureID (s : SceneManagerState) (tag : String) : Int :=
  findTextureIDLoop s.textureIDs tag

/-- Scan loop of `SceneManager::FindTextureSlot`, carrying the running
slot index. -/
def findTextureSlotLoop : List TEXTURE_INFO → String → Nat → Int
  | [], _, _ => -1
  | e :: rest, tag, index =>
      if e.tag = tag then (index : Int) else findTextureSlotLoop rest tag (index + 1)

/-- `SceneManager::FindTextureSlot`. -/
def findTextureSlot (s : SceneManagerState) (tag : String) : Int :=
  findTextureSlotLoop s.textureIDs tag 0

/-! ## Material registry -/

/-- Scan loop of `SceneManager::FindMaterial`: on the first tag match, copy
the entry's diffuse/specular/shininess (not the tag) into the by-reference
output and stop; otherwise leave the output untouched. -/
def findMaterialLoop : List OBJECT_MATERIAL → String → OBJECT_MATERIAL → OBJECT_MATERIAL
  | [], _, material => material
  | e :: rest, tag, material =>
      if e.tag = tag then
        { material with
            diffuseColor := e.diffuseColor,
            specularColor := e.specularColor,
            shininess := e.shininess }
      else
        findMaterialLoop rest tag material

/-- `SceneManager::FindMaterial`: returns `false` only when the registry is
empty; otherwise runs the scan loop and returns `true` regardless of
whether any tag matched.  The pair is (returned bool, final value of the
by-reference `material` argument). -/
def findMaterial (s : SceneManagerState) (tag : String)
    (material : OBJECT_MATERIAL) : Bool × OBJECT_MATERIAL :=
  if s.objectMaterials.length = 0 then
    (false, material)
  else
    (true, findMaterialLoop s.objectMaterials tag material)

/-! ## Shader state bridge: `SetTransformations`

The glm calls of `SetTransformations`, over ℝ.  glm stores matrices
column-major but composes them as ordinary linear maps; the matrices below
are the mathematical matrices the calls produce (row `i`, column `j`). -/

/-- `glm::radians`: degrees to radians. -/
noncomputable def radians (degrees : ℝ) : ℝ := degrees * (Real.pi / 180)

/-- `glm::scale(v)` as a 4×4 matrix. -/
noncomputable def scaleMat (v : ℝ × ℝ × ℝ) : Matrix (Fin 4) (Fin 4) ℝ :=
  !![v.1, 0, 0, 0;
     0, v.2.1, 0, 0;
     0, 0, v.2.2, 0;
     0, 0, 0, 1]

/-- `glm::rotate(a, vec3(1,0,0))`: rotation about the x axis. -/
noncomputable def rotateXMat (a : ℝ) : Matrix (Fin 4) (Fin 4) ℝ :=
  !![1, 0, 0, 0;
     0, Real.cos a, -Real.sin a, 0;
     0, Real.sin a, Real.cos a, 0;
     0, 0, 0, 1]

/-- `glm::rotate(a, vec3(0,1,0))`: rotation about the y axis. -/
noncomputable def rotateYMat (a : ℝ) : Matrix (Fin 4) (Fin 4) ℝ :=
  !![Real.cos a, 0, Real.sin a, 0;
     0, 1, 0, 0;
     -Real.sin a, 0, Real.cos a, 0;
     0, 0, 0, 1]

/-- `glm::rotate(a, vec3(0,0,1))`: rotation about the z axis. -/
noncomputable def rotateZMat (a : ℝ) : Matrix (Fin 4) (Fin 4) ℝ :=
  !![Real.cos a, -Real.sin a, 0, 0;
     Real.sin a, Real.cos a, 0, 0;
     0, 0, 1, 0;
     0, 0, 0, 1]

/-- `glm::translate(v)` as a 4×4 matrix. -/
noncomputable def translateMat (v : ℝ × ℝ × ℝ) : Matrix (Fin 4) (Fin 4) ℝ :=
  !![1, 0, 0, v.1;
     0, 1, 0, v.2.1;
     0, 0, 1, v.2.2;
     0, 0, 0, 1]

/-- The `modelView` local of `SetTransformations`:
`translation * rotationZ * rotationY * rotationX * scale`, the rotation
angles converted from degrees. -/
noncomputable def modelView (scaleXYZ : ℝ × ℝ × ℝ)
    (XrotationDegrees YrotationDegrees ZrotationDegrees : ℝ)
    (positionXYZ : ℝ × ℝ × ℝ) : Matrix (Fin 4) (Fin 4) ℝ :=
  translateMat positionXYZ *
    rotateZMat (radians ZrotationDegrees) *
    rotateYMat (radians YrotationDegrees) *
    rotateXMat (radians XrotationDegrees) *
    scaleMat scaleXYZ

/-- `SceneManager::SetTransformations`: compute `modelView` and, only when
`m_pShaderManager` is non-null, write it to the `model` uniform. -/
noncomputable def setTransformations (s : SceneManagerState)
    (scaleXYZ : ℝ × ℝ × ℝ)
    (XrotationDegrees YrotationDegrees ZrotationDegrees : ℝ)
    (positionXYZ : ℝ × ℝ × ℝ) : SceneManagerState :=
  match s.pShaderManager with
  | none => s
  | some sh =>
      let m := modelView scaleXYZ
        XrotationDegrees YrotationDegrees ZrotationDegrees positionXYZ
      let sh1 := { sh with model := m }
      { s with pShaderManager := some sh1 }

/-! ## Shader state bridge: colors, textures, UV scale, materials -/

/-- `SceneManager::SetShaderColor`: when `m_pShaderManager` is non-null,
clear `bUseTexture` and write the RGBA color to `objectColor`. -/
def setShaderColor (s : SceneManagerState)
    (redColorValue greenColorValue blueColorValue alphaValue : ℚ) :
    SceneManagerState :=
  match s.pShaderManager with
  | none => s
  | some sh =>
      let sh1 := { sh with
                    bUseTexture := false,
                    objectColor := (redColorValue, greenColorValue,
                                    blueColorValue, alphaValue) }
      { s with pShaderManager := some sh1 }

/-- `SceneManager::SetShaderTexture`: when `m_pShaderManager` is non-null,
set `bUseTexture` and write `FindTextureSlot`'s result (`-1` when the tag
is unknown) to the `objectTexture` sampler uniform. -/
def setShaderTexture (s : SceneManagerState) (textureTag : String) :
    SceneManagerState :=
  match s.pShaderManager with
  | none => s
  | some sh =>
      let sh1 := { sh with
                    bUseTexture := true,
                    objectTexture := findTextureSlot s textureTag }
      { s with pShaderManager := some sh1 }

/-- `SceneManager::SetTextureUVScale`: when `m_pShaderManager` is non-null,
write the `UVscale` uniform. -/
def setTextureUVScale (s : SceneManagerState) (u v : ℚ) : SceneManagerState :=
  match s.pShaderManager with
  | none => s
  | some sh =>
      { s with pShaderManager := some { sh with UVscale := (u, v) } }

/-- `SceneManager::SetShaderMaterial`: when the material registry is
non-empty, run `FindMaterial` on the uninitialized local (`junk`) and, when
it reports success, write the local's fields through `m_pShaderManager`
WITHOUT a null check — `none` is that null-pointer dereference. -/
def setShaderMaterial (s : SceneManagerState) (materialTag : String)
    (junk : OBJECT_MATERIAL) : Option SceneManagerState :=
  if s.objectMaterials.length > 0 then
    let res := findMaterial s materialTag junk
    if res.1 = true then
      match s.pShaderManager with
      | none => none
      | some sh =>
          let sh1 := { sh with
                        materialDiffuseColor := res.2.diffuseColor,
                        materialSpecularColor := res.2.specularColor,
                        materialShininess := res.2.shininess }
          some { s with pShaderManager := some sh1 }
    else
      some s
  else
    some s

/-! ## Scene script: `DefineObjectMaterials`, `SetupSceneLights`,
`LoadSceneTextures`, `PrepareScene` -/

/-- The `matteBlack` material of `DefineObjectMaterials`. -/
def matteBlack : OBJECT_MATERIAL :=
  { diffuseColor := (1/10, 1/10, 1/10),
    specularColor := (1/10, 1/10, 1/10),
    shininess := 8,
    tag := "matteblack" }

/-- The `polishWhite` material of `DefineObjectMaterials`. -/
def polishWhite : OBJECT_MATERIAL :=
  { diffuseColor := (95/100, 95/100, 95/100),
    specularColor := (1/2, 1/2, 1/2),
    shininess := 32,
    tag := "polishwhite" }

/-- The `glassScreen` material of `DefineObjectMaterials`. -/
def glassScreen : OBJECT_MATERIAL :=
  { diffuseColor := (1/10, 1/10, 1/10),
    specularColor := (9/10, 9/10, 9/10),
    shininess := 128,
    tag := "glassscreen" }

/-- The `greyLeather` material of `DefineObjectMaterials` (tag `dashmat`). -/
def greyLeather : OBJECT_MATERIAL :=
  { diffuseColor := (3/10, 3/10, 3/10),
    specularColor := (1/10, 1/10, 1/10),
    shininess := 4,
    tag := "dashmat" }

/-- The `plastic` material of `DefineObjectMaterials`. -/
def plastic : OBJECT_MATERIAL :=
  { diffuseColor := (15/100, 15/100, 15/100),
    specularColor := (3/10, 3/10, 3/10),
    shininess := 16,
    tag := "plastic" }

/-- `SceneManager::DefineObjectMaterials`: push the five scene materials
onto `m_objectMaterials` in order. -/
def defineObjectMaterials (s : SceneManagerState) : SceneManagerState :=
  { s with objectMaterials := s.objectMaterials ++
      [matteBlack, polishWhite, glassScreen, greyLeather, plastic] }

/-- Uniform writes of `SceneManager::SetupSceneLights`: enable lighting and
set the directional "sunlight" and the cabin point light. -/
def sceneLightsUniforms (sh : ShaderState) : ShaderState :=
  { sh with
      bUseLighting := true,
      directionalLight :=
        { direction := (2/10, -2/10, -1/2),
          ambient := (1/10, 0, 1/10),
          diffuse := (8/10, 8/10, 8/10),
          specular := (2/10, 2/10, 2/10),
          bActive := true },
      pointLight0 :=
        { position := (0, 5/2, -2),
          ambient := (5/100, 5/100, 5/100),
          diffuse := (1, 1, 1),
          specular := (2/10, 2/10, 2/10),
          bActive := true } }

/-- `SceneManager::SetupSceneLights`: writes the lighting uniforms through
`m_pShaderManager` without a null check (`none` = null dereference). -/
def setupSceneLights (s : SceneManagerState) : Option SceneManagerState :=
  match s.pShaderManager with
  | none => none
  | some sh =>
      some { s with pShaderManager := some (sceneLightsUniforms sh) }

/-- `SceneManager::LoadSceneTextures`: the seven `CreateGLTexture` calls
(each return value stored into `bReturn` and ignored), then
`BindGLTextures`. -/
def loadSceneTextures (decode : String → Option Image)
    (s : SceneManagerState) : SceneManagerState :=
  let s1 := (createGLTexture decode "textures/leather1.jpg" "dash" s).2
  let s2 := (createGLTexture decode "textures/tesla_screen.jpg" "screen" s1).2
  let s3 := (createGLTexture decode "textures/leatherwhite.jpg" "base" s2).2
  let s4 := (createGLTexture decode "textures/metalgrid.jpg" "ground" s3).2
  let s5 := (createGLTexture decode "textures/grayleather.jpg" "dashText" s4).2
  let s6 := (createGLTexture decode "textures/black_plastic.jpg" "plastic" s5).2
  let s7 := (createGLTexture decode "textures/steering_wheel.jpg" "wheel" s6).2
  bindGLTextures s7

/-- `SceneManager::PrepareScene`: define materials, load and bind textures,
configure the lights (an unchecked shader dereference), and load the four
primitive meshes once. -/
def prepareScene (decode : String → Option Image)
    (s : SceneManagerState) : Option SceneManagerState :=
  let s1 := defineObjectMaterials s
  let s2 := loadSceneTextures decode s1
  match setupSceneLights s2 with
  | none => none
  | some s3 =>
      some { s3 with loadedMeshes := s3.loadedMeshes ++
              [MeshKind.box, MeshKind.plane, MeshKind.cylinder, MeshKind.torus] }

/-! ## Scene script: `RenderScene`

`RenderScene` is straight-line code: a fixed sequence of state-bridge calls
and mesh draws.  It is embedded as the literal command list below plus an
interpreter mapping each command to the corresponding method. -/

/-- One call made by `RenderScene`.  Transform parameters are the literal
float constants, recorded as rationals. -/
inductive SceneCommand where
  | setTransform (scaleXYZ : Vec3) (xDeg yDeg zDeg : ℚ) (positionXYZ : Vec3)
  | setMaterial (tag : String)
  | setTexture (tag : String)
  | setColor (r g b a : ℚ)
  | setUVScale (u v : ℚ)
  | draw (mesh : MeshKind)
deriving DecidableEq, Repr

/-- The body of `SceneManager::RenderScene`, in source order. -/
def renderSceneCommands : List SceneCommand :=
  [ -- ground plane
    .setTransform (20, 1, 10) 0 0 0 (0, 0, 0),
    .setMaterial "dashmat",
    .setTexture "ground",
    .draw .plane,
    -- main dashboard body
    .setTransform (28/10, 12/100, 6/10) 20 0 0 (0, 8/10, -15/10),
    .setMaterial "dashmat",
    .setTexture "dash",
    .setUVScale 3 1,
    .draw .cylinder,
    -- dashboard top surface
    .setTransform (28/10, 2/100, 2/10) 5 0 0 (0, 95/100, -14/10),
    .setMaterial "metal",
    .setColor (15/100) (15/100) (15/100) 1,
    .draw .box,
    -- touchscreen frame
    .setTransform (49/100, 65/100, 4/100) 5 0 0 (0, 9/10, -85/100),
    .setMaterial "plastic",
    .setColor (5/100) (5/100) (5/100) 1,
    .draw .box,
    -- display surface
    .setTransform (47/100, 63/100, 2/100) 5 0 0 (0, 9/10, -83/100),
    .setMaterial "glassscreen",
    .setTexture "screen",
    .setUVScale 1 1,
    .draw .box,
    -- steering wheel ring
    .setTransform (26/100, 26/100, 5/100) 20 0 0 (-65/100, 85/100, -7/10),
    .setMaterial "plastic",
    .setTexture "wheel",
    .draw .torus,
    -- steering column
    .setTransform (4/100, 41/100, 4/100) (-90) 0 0 (-65/100, 85/100, -7/10),
    .setMaterial "matteblack",
    .draw .cylinder,
    -- steering wheel center (airbag cover)
    .setTransform (12/100, 12/100, 5/100) 20 0 0 (-65/100, 85/100, -7/10),
    .setMaterial "plastic",
    .setColor (2/10) (2/10) (2/10) 1,
    .draw .box,
    -- seat base
    .setTransform (1/2, 1/10, 1/2) 0 0 0 (-7/10, 1/10, 0),
    .setMaterial "dashmat",
    .setTexture "dash",
    .draw .box,
    -- seat back
    .setTransform (1/2, 7/10, 1/10) 15 0 0 (-699/1000, 1/2, 35/100),
    .setMaterial "dashmat",
    .setTexture "dash",
    .draw .box,
    -- center console
    .setTransform (3/10, 25/100, 18/10) 0 0 0 (0, 2/10, -2/10),
    .setMaterial "plastic",
    .setColor (1/10) (1/10) (1/10) 1,
    .draw .box,
    -- cup holders
    .setTransform (2/10, 1/10, 2/10) 0 0 0 (0, 3/10, 4/10),
    .setMaterial "matteblack",
    .draw .box ]

/-- Meshes drawn so far, as an execution log (external mesh service). -/
def recordDraw (s : SceneManagerState) (_m : MeshKind) : SceneManagerState := s

/-- Interpret one `RenderScene` command as the method it stands for.  Each
`SetShaderMaterial` call starts from its own uninitialized local, supplied
by `junk`. -/
noncomputable def execCommand (junk : OBJECT_MATERIAL)
    (s : SceneManagerState) : SceneCommand → Option SceneManagerState
  | .setTransform sc x y z p =>
      some (setTransformations s ((sc.1 : ℝ), (sc.2.1 : ℝ), (sc.2.2 : ℝ))
        (x : ℝ) (y : ℝ) (z : ℝ) ((p.1 : ℝ), (p.2.1 : ℝ), (p.2.2 : ℝ)))
  | .setMaterial tag => setShaderMaterial s tag junk
  | .setTexture tag => some (setShaderTexture s tag)
  | .setColor r g b a => some (setShaderColor s r g b a)
  | .setUVScale u v => some (setTextureUVScale s u v)
  | .draw m => some (recordDraw s m)

/-- `SceneManager::RenderScene`: run the command list in order. -/
noncomputable def renderScene (junk : OBJECT_MATERIAL)
    (s : SceneManagerState) : Option SceneManagerState :=
  renderSceneCommands.foldlM (execCommand junk) s

/-! ## Concrete sample states (used by witnesses and counterexamples) -/

/-- A GL context that has handed out names 1..5 already. -/
def gl0 : GLState := { nextName := 6, live := [1, 2, 3, 4, 5], bound := 0, units := [] }

/-- A sample shader uniform store. -/
def sh0 : ShaderState :=
  { model := 1,
    objectColor := (0, 0, 0, 0),
    objectTexture := -1,
    bUseTexture := true,
    bUseLighting := false,
    UVscale := (1, 1),
    materialDiffuseColor := (0, 0, 0),
    materialSpecularColor := (0, 0, 0),
    materialShininess := 0,
    directionalLight :=
      { direction := (0, 0, 0), ambient := (0, 0, 0), diffuse := (0, 0, 0),
        specular := (0, 0, 0), bActive := false },
    pointLight0 :=
      { position := (0, 0, 0), ambient := (0, 0, 0), diffuse := (0, 0, 0),
        specular := (0, 0, 0), bActive := false } }

/-- A scene manager with a null shader pointer, one material and one texture. -/
def smNull : SceneManagerState :=
  { pShaderManager := none,
    textureIDs := [{ ID := 5, tag := "t" }],
    objectMaterials := [matteBlack],
    gl := gl0,
    loadedMeshes := [] }

/-- A scene manager with a live shader, no materials, two textures sharing
the tag `"t"`. -/
def smSh : SceneManagerState :=
  { pShaderManager := some sh0,
    textureIDs := [{ ID := 4, tag := "t" }, { ID := 5, tag := "t" }],
    objectMaterials := [],
    gl := gl0,
    loadedMeshes := [] }

/-- A decoder producing a 3-channel image for every path. -/
def decode3 : String → Option Image :=
  fun _ => some { width := 2, height := 2, channels := 3 }

/-- A decoder producing a 2-channel image for every path. -/
def decode2 : String → Option Image :=
  fun _ => some { width := 2, height := 2, channels := 2 }

/-! ## Helper lemmas -/

/-- The scan loop of `FindMaterial` leaves the by-reference output untouched
when no entry's tag matches. -/
theorem findMaterialLoop_no_match (l : List OBJECT_MATERIAL) (tag : String)
    (material : OBJECT_MATERIAL) (h : ∀ e ∈ l, e.tag ≠ tag) :
    findMaterialLoop l tag material = material := by
  induction l with
  | nil => rfl
  | cons e rest ih =>
      simp only [findMaterialLoop]
      rw [if_neg (h e (List.mem_cons_self e rest))]
      exact ih fun x hx => h x (List.mem_cons_of_mem e hx)

/-- `CreateGLTexture` never touches the material registry. -/
theorem createGLTexture_objectMaterials (decode : String → Option Image)
    (filename tag : String) (s : SceneManagerState) :
    ((createGLTexture decode filename tag s).2).objectMaterials =
      s.objectMaterials := by
  unfold createGLTexture
  cases decode filename with
  | none => rfl
  | some image =>
      by_cases h : image.channels = 3 ∨ image.channels = 4 <;>
        simp [h]

/-- `CreateGLTexture` never touches the shader pointer. -/
theorem createGLTexture_pShaderManager (decode : String → Option Image)
    (filename tag : String) (s : SceneManagerState) :
    ((createGLTexture decode filename tag s).2).pShaderManager =
      s.pShaderManager := by
  unfold createGLTexture
  cases decode filename with
  | none => rfl
  | some image =>
      by_cases h : image.channels = 3 ∨ image.channels = 4 <;>
        simp [h]

/-- `LoadSceneTextures` never touches the material registry. -/
theorem loadSceneTextures_objectMaterials (decode : String → Option Image)
    (s : SceneManagerState) :
    (loadSceneTextures decode s).objectMaterials = s.objectMaterials := by
  simp [loadSceneTextures, bindGLTextures, createGLTexture_objectMaterials]

/-- `LoadSceneTextures` never touches the shader pointer. -/
theorem loadSceneTextures_pShaderManager (decode : String → Option Image)
    (s : SceneManagerState) :
    (loadSceneTextures decode s).pShaderManager = s.pShaderManager := by
  simp [loadSceneTextures, bindGLTextures, createGLTexture_pShaderManager]

/-! ## C1: `FindMaterial` boundary behavior -/

/-- C1: `FindMaterial` returns `false` on an empty material registry; on a
non-empty registry it returns `true` even when no entry's tag matches, and
in that no-match case the by-reference output material comes back exactly
as it went in (no entry's values are copied into it). -/
theorem findMaterial_nonempty_always_true (s : SceneManagerState)
    (tag : String) (material : OBJECT_MATERIAL) :
    (s.objectMaterials = [] → findMaterial s tag material = (false, material)) ∧
    (s.objectMaterials ≠ [] → (findMaterial s tag material).1 = true) ∧
    ((∀ e ∈ s.objectMaterials, e.tag ≠ tag) →
        (findMaterial s tag material).2 = material) := by
  refine ⟨fun h => ?_, fun h => ?_, fun h => ?_⟩
  · simp [findMaterial, h]
  · simp [findMaterial, List.length_eq_zero, h]
  · by_cases hemp : s.objectMaterials = []
    · simp [findMaterial, hemp]
    · simp only [findMaterial, List.length_eq_zero]
      rw [if_neg hemp]
      exact findMaterialLoop_no_match _ _ _ h

/-- C1 witness: on a registry holding only `matteBlack`, looking up the
absent tag `"metal"` reports found and leaves the output material intact. -/
theorem findMaterial_nonempty_always_true_witness :
    (findMaterial smNull "metal" polishWhite).1 = true ∧
    (findMaterial smNull "metal" polishWhite).2 = polishWhite :=
  ⟨(findMaterial_nonempty_always_true smNull "metal" polishWhite).2.1 (by decide),
   (findMaterial_nonempty_always_true smNull "metal" polishWhite).2.2 (by decide)⟩

/-! ## C2: unsupported channel counts -/

/-- C2: when the decoded image has a channel count other than 3 or 4,
`CreateGLTexture` returns `false` and the texture registry is unchanged:
same entry table, same loaded-texture count. -/
theorem createGLTexture_unsupported_unchanged (decode : String → Option Image)
    (filename tag : String) (s : SceneManagerState) (image : Image)
    (hdec : decode filename = some image)
    (h3 : image.channels ≠ 3) (h4 : image.channels ≠ 4) :
    (createGLTexture decode filename tag s).1 = false ∧
    ((createGLTexture decode filename tag s).2).textureIDs = s.textureIDs ∧
    ((createGLTexture decode filename tag s).2).loadedTextures =
      s.loadedTextures := by
  unfold createGLTexture
  rw [hdec]
  simp [h3, h4, SceneManagerState.loadedTextures]

/-- C2 witness: loading a 2-channel image fails and leaves the registry of
`smNull` untouched. -/
theorem createGLTexture_unsupported_unchanged_witness :
    (createGLTexture decode2 "textures/x.jpg" "x" smNull).1 = false ∧
    ((createGLTexture decode2 "textures/x.jpg" "x" smNull).2).textureIDs =
      smNull.textureIDs ∧
    ((createGLTexture decode2 "textures/x.jpg" "x" smNull).2).loadedTextures =
      smNull.loadedTextures :=
  createGLTexture_unsupported_unchanged decode2 "textures/x.jpg" "x" smNull
    { width := 2, height := 2, channels := 2 } rfl (by decide) (by decide)

/-! ## C8: `SetShaderMaterial` on an empty material registry -/

/-- C8: with an empty material registry, `SetShaderMaterial` is a no-op for
every tag: it neither writes a uniform nor fails (returns the state as is,
and in particular never dereferences the null pointer). -/
theorem setShaderMaterial_empty_noop (s : SceneManagerState) (tag : String)
    (junk : OBJECT_MATERIAL) (h : s.objectMaterials = []) :
    setShaderMaterial s tag junk = some s := by
  simp [setShaderMaterial, h]

/-- C8 witness: on the material-free state `smSh`, `SetShaderMaterial` with
an arbitrary tag returns the state unchanged. -/
theorem setShaderMaterial_empty_noop_witness :
    setShaderMaterial smSh "metal" matteBlack = some smSh :=
  setShaderMaterial_empty_noop smSh "metal" matteBlack (by decide)

/-! ## C4: lookups are first-match -/

/-- The `FindTextureID` scan returns the ID at the least matching index. -/
theorem findTextureIDLoop_first (l : List TEXTURE_INFO) (tag : String)
    (i : Nat) (hi : i < l.length) (hmatch : (l.get ⟨i, hi⟩).tag = tag)
    (hbefore : ∀ j (hj : j < i), (l.get ⟨j, Nat.lt_trans hj hi⟩).tag ≠ tag) :
    findTextureIDLoop l tag = ((l.get ⟨i, hi⟩).ID : Int) := by
  induction l generalizing i with
  | nil => simp at hi
  | cons e rest ih =>
      cases i with
      | zero => simp_all [findTextureIDLoop]
      | succ n =>
          have he : e.tag ≠ tag := hbefore 0 (Nat.succ_pos n)
          simp only [findTextureIDLoop, if_neg he]
          exact ih n (Nat.lt_of_succ_lt_succ hi) hmatch
            fun j hj => hbefore (j + 1) (Nat.succ_lt_succ hj)

/-- The `FindTextureSlot` scan, started at running index `k`, returns `k`
plus the least matching index. -/
theorem findTextureSlotLoop_first (l : List TEXTURE_INFO) (tag : String)
    (k i : Nat) (hi : i < l.length) (hmatch : (l.get ⟨i, hi⟩).tag = tag)
    (hbefore : ∀ j (hj : j < i), (l.get ⟨j, Nat.lt_trans hj hi⟩).tag ≠ tag) :
    findTextureSlotLoop l tag k = ((k + i : Nat) : Int) := by
  induction l generalizing i k with
  | nil => simp at hi
  | cons e rest ih =>
      cases i with
      | zero => simp_all [findTextureSlotLoop]
      | succ n =>
          have he : e.tag ≠ tag := hbefore 0 (Nat.succ_pos n)
          simp only [findTextureSlotLoop, if_neg he]
          have := ih (k + 1) n (Nat.lt_of_succ_lt_succ hi) hmatch
            fun j hj => hbefore (j + 1) (Nat.succ_lt_succ hj)
          rw [this]
          omega

/-- C4: for every registry state and tag, both lookups resolve to the
first-inserted entry bearing the tag: if slot `i` matches and no earlier
slot does, `FindTextureSlot` returns `i` and `FindTextureID` returns the
ID stored at slot `i` — duplicated tags never resolve to a later entry. -/
theorem textureLookups_first_match (s : SceneManagerState) (tag : String)
    (i : Nat) (hi : i < s.textureIDs.length)
    (hmatch : (s.textureIDs.get ⟨i, hi⟩).tag = tag)
    (hbefore : ∀ j (hj : j < i),
        (s.textureIDs.get ⟨j, Nat.lt_trans hj hi⟩).tag ≠ tag) :
    findTextureSlot s tag = (i : Int) ∧
    findTextureID s tag = ((s.textureIDs.get ⟨i, hi⟩).ID : Int) := by
  constructor
  · have := findTextureSlotLoop_first s.textureIDs tag 0 i hi hmatch hbefore
    simpa [findTextureSlot] using this
  · exact findTextureIDLoop_first s.textureIDs tag i hi hmatch hbefore

/-- C4 witness: `smSh` holds two entries tagged `"t"` (IDs 4 then 5); both
lookups resolve to the first-inserted one. -/
theorem textureLookups_first_match_witness :
    findTextureSlot smSh "t" = (0 : Int) ∧
    findTextureID smSh "t" = (4 : Int) :=
  textureLookups_first_match smSh "t" 0 (by decide) (by decide)
    (fun j hj => absurd hj (Nat.not_lt_zero j))

/-! ## C5: load followed by lookup -/

/-- C5 counterexample: on a registry already holding tag `"t"` (ID 5), a
successful 3-channel load under the same tag `"t"` creates the entry
`ID 6` at slot 1, yet `FindTextureID "t"` still returns 5 and
`FindTextureSlot "t"` still returns 0 — the lookups do not return the
just-created entry. -/
theorem createGLTexture_then_find_duplicate_counterexample :
    (createGLTexture decode3 "textures/x.jpg" "t" smNull).1 = true ∧
    ((createGLTexture decode3 "textures/x.jpg" "t" smNull).2).textureIDs =
      [{ ID := 5, tag := "t" }, { ID := 6, tag := "t" }] ∧
    findTextureID (createGLTexture decode3 "textures/x.jpg" "t" smNull).2 "t"
      = (5 : Int) ∧
    findTextureSlot (createGLTexture decode3 "textures/x.jpg" "t" smNull).2 "t"
      = (0 : Int) ∧
    (5 : Int) ≠ (6 : Int) ∧ (0 : Int) ≠ (1 : Int) := by
  decide

/-- The `FindTextureID` scan on `l ++ [e]` reaches `e` when nothing in `l`
matches. -/
theorem findTextureIDLoop_append_fresh (l : List TEXTURE_INFO)
    (e : TEXTURE_INFO) (tag : String) (hl : ∀ x ∈ l, x.tag ≠ tag)
    (he : e.tag = tag) :
    findTextureIDLoop (l ++ [e]) tag = (e.ID : Int) := by
  induction l with
  | nil => simp [findTextureIDLoop, he]
  | cons x rest ih =>
      simp only [List.cons_append, findTextureIDLoop,
        if_neg (hl x (List.mem_cons_self x rest))]
      exact ih fun y hy => hl y (List.mem_cons_of_mem x hy)

/-- The `FindTextureSlot` scan on `l ++ [e]` reaches `e`'s slot when
nothing in `l` matches. -/
theorem findTextureSlotLoop_append_fresh (l : List TEXTURE_INFO)
    (e : TEXTURE_INFO) (tag : String) (k : Nat)
    (hl : ∀ x ∈ l, x.tag ≠ tag) (he : e.tag = tag) :
    findTextureSlotLoop (l ++ [e]) tag k = ((k + l.length : Nat) : Int) := by
  induction l generalizing k with
  | nil => simp [findTextureSlotLoop, he]
  | cons x rest ih =>
      rw [List.cons_append]
      simp only [findTextureSlotLoop, if_neg (hl x (List.mem_cons_self x rest))]
      rw [ih (k + 1) fun y hy => hl y (List.mem_cons_of_mem x hy)]
      simp only [List.length_cons]
      omega

/-- C5 amended: after a successful 3- or 4-channel load under a tag no
existing entry bears, `FindTextureID` returns the just-created entry's
handle (the freshly generated GL name) and `FindTextureSlot` returns the
just-created entry's slot (the old loaded-texture count); with a duplicated
tag the lookups instead return the first-inserted entry, per C4. -/
theorem createGLTexture_then_find_fresh_tag (decode : String → Option Image)
    (filename tag : String) (s : SceneManagerState) (image : Image)
    (hdec : decode filename = some image)
    (hch : image.channels = 3 ∨ image.channels = 4)
    (hfresh : ∀ e ∈ s.textureIDs, e.tag ≠ tag) :
    (createGLTexture decode filename tag s).1 = true ∧
    ((createGLTexture decode filename tag s).2).textureIDs =
      s.textureIDs ++ [{ ID := s.gl.nextName, tag := tag }] ∧
    findTextureID (createGLTexture decode filename tag s).2 tag =
      (s.gl.nextName : Int) ∧
    findTextureSlot (createGLTexture decode filename tag s).2 tag =
      (s.textureIDs.length : Int) := by
  have hres : createGLTexture decode filename tag s =
      (true, { s with
        gl := { (glGenTexture s.gl).2 with bound := 0 },
        textureIDs := s.textureIDs ++ [{ ID := s.gl.nextName, tag := tag }] }) := by
    unfold createGLTexture
    rw [hdec]
    simp [hch, glGenTexture]
  refine ⟨by rw [hres], by rw [hres], ?_, ?_⟩
  · rw [hres]
    exact findTextureIDLoop_append_fresh s.textureIDs _ tag hfresh rfl
  · rw [hres]
    have := findTextureSlotLoop_append_fresh s.textureIDs
      { ID := s.gl.nextName, tag := tag } tag 0 hfresh rfl
    simpa [findTextureSlot] using this

/-- C5 witness: loading tag `"fresh"` (absent from `smSh`) appends entry
`ID 6` at slot 2, and both lookups then return that just-created entry. -/
theorem createGLTexture_then_find_fresh_tag_witness :
    (createGLTexture decode3 "textures/x.jpg" "fresh" smSh).1 = true ∧
    ((createGLTexture decode3 "textures/x.jpg" "fresh" smSh).2).textureIDs =
      smSh.textureIDs ++ [{ ID := smSh.gl.nextName, tag := "fresh" }] ∧
    findTextureID (createGLTexture decode3 "textures/x.jpg" "fresh" smSh).2
      "fresh" = (smSh.gl.nextName : Int) ∧
    findTextureSlot (createGLTexture decode3 "textures/x.jpg" "fresh" smSh).2
      "fresh" = (smSh.textureIDs.length : Int) :=
  createGLTexture_then_find_fresh_tag decode3 "textures/x.jpg" "fresh" smSh
    { width := 2, height := 2, channels := 3 } rfl (Or.inl rfl) (by decide)

/-! ## C6: the `bUseTexture` flag -/

/-- C6: whenever a shader is bound, `SetShaderColor` leaves the shader's
`bUseTexture` flag `false` and `SetShaderTexture` leaves it `true`: no
single call enables texture sampling and flat color at once. -/
theorem shaderColor_texture_flag (s : SceneManagerState)
    (r g b a : ℚ) (tag : String) :
    (∀ sh1, (setShaderColor s r g b a).pShaderManager = some sh1 →
        sh1.bUseTexture = false) ∧
    (∀ sh2, (setShaderTexture s tag).pShaderManager = some sh2 →
        sh2.bUseTexture = true) := by
  cases hs : s.pShaderManager with
  | none =>
      constructor
      · intro sh1 h
        rw [show setShaderColor s r g b a = s by simp [setShaderColor, hs],
          hs] at h
        cases h
      · intro sh2 h
        rw [show setShaderTexture s tag = s by simp [setShaderTexture, hs],
          hs] at h
        cases h
  | some sh =>
      constructor
      · intro sh1 h
        simp only [setShaderColor, hs, Option.some.injEq] at h
        rw [← h]
      · intro sh2 h
        simp only [setShaderTexture, hs, Option.some.injEq] at h
        rw [← h]

/-- C6 witness: on the shader-bound state `smSh` (whose flag starts `true`),
a flat-color call leaves the flag `false` and a texture call leaves it
`true`. -/
theorem shaderColor_texture_flag_witness :
    ({ sh0 with
        bUseTexture := false,
        objectColor := ((1 : ℚ), (0 : ℚ), (0 : ℚ), (1 : ℚ)) } :
      ShaderState).bUseTexture = false ∧
    ({ sh0 with
        bUseTexture := true,
        objectTexture := findTextureSlot smSh "t" } :
      ShaderState).bUseTexture = true :=
  ⟨(shaderColor_texture_flag smSh 1 0 0 1 "t").1 _ rfl,
   (shaderColor_texture_flag smSh 1 0 0 1 "t").2 _ rfl⟩

/-! ## C9: null-shader guard contrast -/

/-- C9: with a null shader pointer, the guarded writers
(`SetTransformations`, `SetShaderColor`, `SetShaderTexture`,
`SetTextureUVScale`) all no-op safely, while `SetShaderMaterial` with a
non-empty material registry reaches its uniform-write branch and
dereferences the null pointer. -/
theorem setShaderMaterial_null_deref (s : SceneManagerState)
    (sc : ℝ × ℝ × ℝ) (rx ry rz : ℝ) (pos : ℝ × ℝ × ℝ)
    (r g b a : ℚ) (u v : ℚ) (ttag mtag : String) (junk : OBJECT_MATERIAL)
    (hnull : s.pShaderManager = none) :
    setTransformations s sc rx ry rz pos = s ∧
    setShaderColor s r g b a = s ∧
    setShaderTexture s ttag = s ∧
    setTextureUVScale s u v = s ∧
    (s.objectMaterials ≠ [] → setShaderMaterial s mtag junk = none) := by
  refine ⟨?_, ?_, ?_, ?_, fun hne => ?_⟩
  · simp [setTransformations, hnull]
  · simp [setShaderColor, hnull]
  · simp [setShaderTexture, hnull]
  · simp [setTextureUVScale, hnull]
  · have hlen : s.objectMaterials.length ≠ 0 := by
      simpa [List.length_eq_zero] using hne
    simp [setShaderMaterial, findMaterial, hnull, hlen,
      Nat.pos_of_ne_zero hlen]

/-- C9 witness: on `smNull` (null shader, one material), every guarded
writer returns the state unchanged while `SetShaderMaterial` hits the null
dereference. -/
theorem setShaderMaterial_null_deref_witness :
    setTransformations smNull (1, 1, 1) 0 0 0 (0, 0, 0) = smNull ∧
    setShaderColor smNull 1 0 0 1 = smNull ∧
    setShaderTexture smNull "t" = smNull ∧
    setTextureUVScale smNull 1 1 = smNull ∧
    setShaderMaterial smNull "matteblack" polishWhite = none := by
  have h := setShaderMaterial_null_deref smNull (1, 1, 1) 0 0 0 (0, 0, 0)
    1 0 0 1 1 1 "t" "matteblack" polishWhite rfl
  exact ⟨h.1, h.2.1, h.2.2.1, h.2.2.2.1, h.2.2.2.2 (by decide)⟩

/-! ## C7: `DestroyGLTextures` regenerates instead of deleting -/

/-- The `DestroyGLTextures` loop keeps every tag and the slot count, stores
the consecutively generated fresh names into the slots, and deletes no
live GL texture object. -/
theorem destroyLoop_spec (l : List TEXTURE_INFO) (gl : GLState) :
    (destroyLoop l gl).1.length = l.length ∧
    (destroyLoop l gl).1.map TEXTURE_INFO.tag = l.map TEXTURE_INFO.tag ∧
    (destroyLoop l gl).1.map TEXTURE_INFO.ID =
      List.range' gl.nextName l.length ∧
    (∀ n ∈ gl.live, n ∈ (destroyLoop l gl).2.live) := by
  induction l generalizing gl with
  | nil => simp [destroyLoop]
  | cons e rest ih =>
      have h := ih { gl with
                      nextName := gl.nextName + 1,
                      live := gl.live ++ [gl.nextName] }
      refine ⟨?_, ?_, ?_, ?_⟩
      · simp [destroyLoop, glGenTexture, h.1]
      · simp [destroyLoop, glGenTexture, h.2.1]
      · simp [destroyLoop, glGenTexture, h.2.2.1, List.range'_succ]
      · intro n hn
        have : n ∈ (gl.live ++ [gl.nextName]) := List.mem_append_left _ hn
        have := h.2.2.2 n this
        simpa [destroyLoop, glGenTexture] using this

/-- C7: `DestroyGLTextures` deletes no GPU texture object: every live
object stays live; it writes the freshly generated names
`nextName, nextName+1, …` into the existing slots, and leaves the
loaded-texture count and every slot's tag unchanged. -/
theorem destroyGLTextures_no_delete (s : SceneManagerState) :
    (destroyGLTextures s).loadedTextures = s.loadedTextures ∧
    (destroyGLTextures s).textureIDs.map TEXTURE_INFO.tag =
      s.textureIDs.map TEXTURE_INFO.tag ∧
    (destroyGLTextures s).textureIDs.map TEXTURE_INFO.ID =
      List.range' s.gl.nextName s.textureIDs.length ∧
    (∀ n ∈ s.gl.live, n ∈ (destroyGLTextures s).gl.live) := by
  have h := destroyLoop_spec s.textureIDs s.gl
  refine ⟨?_, ?_, ?_, ?_⟩
  · simpa [destroyGLTextures, SceneManagerState.loadedTextures] using h.1
  · simpa [destroyGLTextures] using h.2.1
  · simpa [destroyGLTextures] using h.2.2.1
  · intro n hn
    simpa [destroyGLTextures] using h.2.2.2 n hn

/-- C7 witness: on `smSh` (two slots, GL names 1..5 live, counter at 6),
destroying keeps both tags and the count, writes fresh names 6 and 7 into
the slots, and object 5 is still live (never deleted). -/
theorem destroyGLTextures_no_delete_witness :
    (destroyGLTextures smSh).loadedTextures = smSh.loadedTextures ∧
    (destroyGLTextures smSh).textureIDs.map TEXTURE_INFO.tag =
      smSh.textureIDs.map TEXTURE_INFO.tag ∧
    (destroyGLTextures smSh).textureIDs.map TEXTURE_INFO.ID =
      List.range' smSh.gl.nextName smSh.textureIDs.length ∧
    5 ∈ (destroyGLTextures smSh).gl.live := by
  have h := destroyGLTextures_no_delete smSh
  exact ⟨h.1, h.2.1, h.2.2.1, h.2.2.2 5 (by decide)⟩

/-! ## C3: `SetTransformations` and the identity matrix -/

/-- The 4×4 identity matrix, entrywise. -/
theorem one_fin_four :
    (1 : Matrix (Fin 4) (Fin 4) ℝ) = !![1, 0, 0, 0;
                                        0, 1, 0, 0;
                                        0, 0, 1, 0;
                                        0, 0, 0, 1] := by
  ext i j
  fin_cases i <;> fin_cases j <;>
    simp [Matrix.one_apply, Matrix.vecHead, Matrix.vecTail]

/-- Degree zero is radian zero. -/
theorem radians_zero : radians 0 = 0 := by
  simp [radians]

/-- Unit scaling is the identity. -/
theorem scaleMat_one : scaleMat (1, 1, 1) = 1 := by
  rw [one_fin_four]
  rfl

/-- Zero-angle x rotation is the identity. -/
theorem rotateXMat_zero : rotateXMat 0 = 1 := by
  rw [one_fin_four]
  simp [rotateXMat]

/-- Zero-angle y rotation is the identity. -/
theorem rotateYMat_zero : rotateYMat 0 = 1 := by
  rw [one_fin_four]
  simp [rotateYMat]

/-- Zero-angle z rotation is the identity. -/
theorem rotateZMat_zero : rotateZMat 0 = 1 := by
  rw [one_fin_four]
  simp [rotateZMat]

/-- Zero translation is the identity. -/
theorem translateMat_zero : translateMat (0, 0, 0) = 1 := by
  rw [one_fin_four]
  rfl

/-- The composed model matrix at unit scale, zero rotations and zero
position is the identity. -/
theorem modelView_id : modelView (1, 1, 1) 0 0 0 (0, 0, 0) = 1 := by
  rw [modelView, radians_zero, rotateXMat_zero, rotateYMat_zero,
    rotateZMat_zero, translateMat_zero, scaleMat_one]
  simp

/-- C3: `SetTransformations` is a pure function of its five inputs; when a
shader is bound it writes to the `model` uniform exactly
`translate(position) * rotateZ(zDeg) * rotateY(yDeg) * rotateX(xDeg) *
scale(scaleVec)` (angles converted from degrees), and at unit scale, zero
rotations and zero position that written matrix is the 4×4 identity. -/
theorem setTransformations_model (s : SceneManagerState)
    (sc : ℝ × ℝ × ℝ) (rx ry rz : ℝ) (pos : ℝ × ℝ × ℝ) :
    (∀ sh, s.pShaderManager = some sh →
        (setTransformations s sc rx ry rz pos).pShaderManager =
          some { sh with model := translateMat pos *
                                    rotateZMat (radians rz) *
                                    rotateYMat (radians ry) *
                                    rotateXMat (radians rx) *
                                    scaleMat sc }) ∧
    modelView (1, 1, 1) 0 0 0 (0, 0, 0) = 1 := by
  refine ⟨fun sh hsh => ?_, modelView_id⟩
  simp [setTransformations, hsh, modelView]

/-- C3 witness: on the shader-bound state `smSh`, the identity inputs write
the identity model matrix. -/
theorem setTransformations_model_witness :
    (setTransformations smSh (1, 1, 1) 0 0 0 (0, 0, 0)).pShaderManager =
      some { sh0 with model := translateMat (0, 0, 0) *
                                 rotateZMat (radians 0) *
                                 rotateYMat (radians 0) *
                                 rotateXMat (radians 0) *
                                 scaleMat (1, 1, 1) } ∧
    modelView (1, 1, 1) 0 0 0 (0, 0, 0) = 1 :=
  ⟨(setTransformations_model smSh (1, 1, 1) 0 0 0 (0, 0, 0)).1 sh0 rfl,
   (setTransformations_model smSh (1, 1, 1) 0 0 0 (0, 0, 0)).2⟩

/-! ## C10: the scene script requests the undefined material tag `"metal"` -/

/-- A freshly constructed scene manager driving the shader `sh`: empty
registries, a fresh GL context, no meshes loaded. -/
def initialState (sh : ShaderState) : SceneManagerState :=
  { pShaderManager := some sh,
    textureIDs := [],
    objectMaterials := [],
    gl := { nextName := 1, live := [], bound := 0, units := [] },
    loadedMeshes := [] }

/-- `SetupSceneLights` on a shader-bound state rewrites only the lighting
uniforms. -/
theorem setupSceneLights_some (s : SceneManagerState) (sh : ShaderState)
    (h : s.pShaderManager = some sh) :
    setupSceneLights s =
      some { s with pShaderManager := some (sceneLightsUniforms sh) } := by
  simp [setupSceneLights, h]

/-- `PrepareScene` on a shader-bound state: materials, then textures, then
lights, then the four meshes. -/
theorem prepareScene_some (decode : String → Option Image)
    (s : SceneManagerState) (sh : ShaderState)
    (h : s.pShaderManager = some sh) :
    prepareScene decode s =
      some { loadSceneTextures decode (defineObjectMaterials s) with
              pShaderManager := some (sceneLightsUniforms sh),
              loadedMeshes :=
                (loadSceneTextures decode (defineObjectMaterials s)).loadedMeshes
                  ++ [MeshKind.box, MeshKind.plane, MeshKind.cylinder,
                      MeshKind.torus] } := by
  have h2 : (loadSceneTextures decode (defineObjectMaterials s)).pShaderManager
      = some sh := by
    rw [loadSceneTextures_pShaderManager]
    simpa [defineObjectMaterials] using h
  simp [prepareScene, setupSceneLights_some _ _ h2]

/-- C10: `RenderScene` requests material tag `"metal"`, which
`DefineObjectMaterials` never defines (it defines exactly `matteblack`,
`polishwhite`, `glassscreen`, `dashmat`, `plastic`); hence on the state
`PrepareScene` produces, `FindMaterial "metal"` reports found while leaving
its output material argument unchanged, and `SetShaderMaterial "metal"`
copies the uninitialized local's (`junk`'s) fields into the shader's
material uniforms. -/
theorem prepareScene_metal_undefined (decode : String → Option Image)
    (sh : ShaderState) (junk m : OBJECT_MATERIAL) (s1 : SceneManagerState)
    (hprep : prepareScene decode (initialState sh) = some s1) :
    SceneCommand.setMaterial "metal" ∈ renderSceneCommands ∧
    s1.objectMaterials.map OBJECT_MATERIAL.tag =
      ["matteblack", "polishwhite", "glassscreen", "dashmat", "plastic"] ∧
    "metal" ∉ s1.objectMaterials.map OBJECT_MATERIAL.tag ∧
    findMaterial s1 "metal" m = (true, m) ∧
    (∃ sh1, setShaderMaterial s1 "metal" junk =
        some { s1 with pShaderManager := some sh1 } ∧
      sh1.materialDiffuseColor = junk.diffuseColor ∧
      sh1.materialSpecularColor = junk.specularColor ∧
      sh1.materialShininess = junk.shininess) := by
  rw [prepareScene_some decode (initialState sh) sh rfl] at hprep
  have hs1 := (Option.some.inj hprep).symm
  have hmat : s1.objectMaterials =
      [matteBlack, polishWhite, glassScreen, greyLeather, plastic] := by
    rw [hs1]
    show (loadSceneTextures decode (defineObjectMaterials (initialState sh))).objectMaterials
      = _
    rw [loadSceneTextures_objectMaterials]
    simp [defineObjectMaterials, initialState]
  have hp : s1.pShaderManager = some (sceneLightsUniforms sh) := by
    rw [hs1]
  have hno : ∀ e ∈ s1.objectMaterials, e.tag ≠ "metal" := by
    rw [hmat]
    decide
  have hlen : s1.objectMaterials.length ≠ 0 := by
    rw [hmat]
    decide
  have hfmm : findMaterial s1 "metal" m = (true, m) := by
    simp [findMaterial, hlen, findMaterialLoop_no_match _ _ _ hno]
  have hfmj : findMaterial s1 "metal" junk = (true, junk) := by
    simp [findMaterial, hlen, findMaterialLoop_no_match _ _ _ hno]
  refine ⟨by decide, ?_, ?_, hfmm, ?_⟩
  · rw [hmat]
    rfl
  · rw [hmat]
    decide
  · refine ⟨{ sceneLightsUniforms sh with
                materialDiffuseColor := junk.diffuseColor,
                materialSpecularColor := junk.specularColor,
                materialShininess := junk.shininess }, ?_, rfl, rfl, rfl⟩
    simp [setShaderMaterial, Nat.pos_of_ne_zero hlen, hfmj, hp]

/-- A decoder that fails on every path (every texture load fails, which the
scene script ignores). -/
def decodeNone : String → Option Image := fun _ => none

/-- The state `PrepareScene` produces from `initialState sh0` when every
texture load fails: the five materials, no textures, lights written, the
four meshes loaded. -/
def prep0 : SceneManagerState :=
  { pShaderManager := some (sceneLightsUniforms sh0),
    textureIDs := [],
    objectMaterials := [matteBlack, polishWhite, glassScreen, greyLeather,
                        plastic],
    gl := { nextName := 1, live := [], bound := 0, units := [] },
    loadedMeshes := [MeshKind.box, MeshKind.plane, MeshKind.cylinder,
                     MeshKind.torus] }

/-- C10 witness: concretely, `PrepareScene` from `initialState sh0` (all
loads failing) yields `prep0`, the script requests `"metal"`, the lookup
reports found without touching its output, and `SetShaderMaterial` copies
the junk fields. -/
theorem prepareScene_metal_undefined_witness :
    SceneCommand.setMaterial "metal" ∈ renderSceneCommands ∧
    prep0.objectMaterials.map OBJECT_MATERIAL.tag =
      ["matteblack", "polishwhite", "glassscreen", "dashmat", "plastic"] ∧
    "metal" ∉ prep0.objectMaterials.map OBJECT_MATERIAL.tag ∧
    findMaterial prep0 "metal" polishWhite = (true, polishWhite) ∧
    (∃ sh1, setShaderMaterial prep0 "metal" matteBlack =
        some { prep0 with pShaderManager := some sh1 } ∧
      sh1.materialDiffuseColor = matteBlack.diffuseColor ∧
      sh1.materialSpecularColor = matteBlack.specularColor ∧
      sh1.materialShininess = matteBlack.shininess) :=
  prepareScene_metal_undefined decodeNone sh0 matteBlack polishWhite prep0 rfl
